import Mathlib

/-!
# Verification of the BABE header-verification module (`src/babe.rs`)

Shallow embedding of `verify_header` and its error taxonomy from
`src/babe.rs`, together with the external collaborators it consumes
(SCALE decoding of headers and digest payloads, and the chain-selection
rule), which are modelled from the specification where the repository's
source for them is not available.

Machine integers are modelled as `Nat` (the code only reads them, never
does overflowing arithmetic on the paths embedded here). Byte strings are
`List Nat`. Fallible decoding returns `Option` / `Except String`
(`parity_scale_codec::Error` is modelled as a `String` diagnostic).
The one observable side effect of `verify_header` (a `println!` of the
decoded consensus logs when the list is nonempty) is made explicit as the
`printed` field of the returned `VerifyOutcome`.
-/

set_option maxRecDepth 100000

namespace Babe

/-- Byte strings are lists of naturals (each intended to be < 256). -/
abbrev Bytes := List Nat

/-- The fixed 4-byte consensus-engine tag `b"BABE"` (ASCII `B A B E`). -/
def babeEngine : Bytes := [66, 65, 66, 69]

/-- Digest log entry of a header, mirroring `crate::block::DigestItem`:
a tagged variant over an engine identifier plus payload, with
`PreRuntime`, `Consensus`, `Seal` and an `Other` case for the log kinds
this module ignores. -/
inductive DigestItem : Type
| PreRuntime (engine : Bytes) (payload : Bytes)
| Consensus (engine : Bytes) (payload : Bytes)
| Seal (engine : Bytes) (payload : Bytes)
| Other (payload : Bytes)
deriving DecidableEq

/-- Decoded block header, mirroring `crate::block::Header`: parent hash,
block number, state root, extrinsics root, and the ordered digest log
sequence. -/
structure Header : Type where
  parentHash : Bytes
  number : Nat
  stateRoot : Bytes
  extrinsicsRoot : Bytes
  digestLogs : List DigestItem
deriving DecidableEq

/-- Little-endian interpretation of a byte string as a natural number. -/
def leNat : Bytes → Nat
| [] => 0
| b :: rest => b + 256 * leNat rest

/-- Little-endian encoding of a natural number on `n` bytes. -/
def leBytes : Nat → Nat → Bytes
| 0, _ => []
| n + 1, v => v % 256 :: leBytes n (v / 256)

/-- Split off the first `n` bytes of the input, failing if it is shorter. -/
def readBytes (n : Nat) (input : Bytes) : Option (Bytes × Bytes) :=
  if n ≤ input.length then some (input.take n, input.drop n) else none

/-- Slot-claim pre-digest, mirroring `definitions::PreDigest`: a primary
claim with VRF output and proof, a plain secondary claim, or a secondary
claim with VRF data. -/
inductive PreDigest : Type
| primary (authorityIndex : Nat) (slotNumber : Nat)
    (vrfOutput : Bytes) (vrfProof : Bytes)
| secondaryPlain (authorityIndex : Nat) (slotNumber : Nat)
| secondaryVRF (authorityIndex : Nat) (slotNumber : Nat)
    (vrfOutput : Bytes) (vrfProof : Bytes)
deriving DecidableEq

/-- Modelled from the spec: the SCALE decoding of a `PreDigest` payload
(`definitions::PreDigest::decode_all`; the `definitions` module is not in
the sources). A tag byte selects the variant (0 primary, 1 secondary
plain, 2 secondary VRF), followed by a 4-byte authority index, an 8-byte
slot number and, for the VRF variants, a 32-byte output and a 64-byte
proof; `decode_all` semantics requires the whole input to be consumed. -/
def decodePreDigest (input : Bytes) : Except String PreDigest :=
  match input with
  | 0 :: rest =>
      if rest.length = 108 then
        .ok (.primary (leNat (rest.take 4)) (leNat ((rest.drop 4).take 8))
              ((rest.drop 12).take 32) (rest.drop 44))
      else .error "invalid primary pre-digest body"
  | 1 :: rest =>
      if rest.length = 12 then
        .ok (.secondaryPlain (leNat (rest.take 4)) (leNat (rest.drop 4)))
      else .error "invalid secondary-plain pre-digest body"
  | 2 :: rest =>
      if rest.length = 108 then
        .ok (.secondaryVRF (leNat (rest.take 4)) (leNat ((rest.drop 4).take 8))
              ((rest.drop 12).take 32) (rest.drop 44))
      else .error "invalid secondary-vrf pre-digest body"
  | _ => .error "invalid pre-digest tag"

/-- Consensus log entry, mirroring `definitions::ConsensusLog`: an epoch
transition announcement, a configuration change, or an authority
disabling. Authorities are (public key, weight) pairs. -/
inductive ConsensusLog : Type
| nextEpochData (authorities : List (Bytes × Nat)) (randomness : Bytes)
| nextConfigData (cNumerator : Nat) (cDenominator : Nat)
    (allowSecondaryClaims : Bool)
| onDisabled (authorityIndex : Nat)
deriving DecidableEq

/-- Read `n` authorities of 32-byte public key plus 8-byte weight each. -/
def readAuthorities : Nat → Bytes → Option (List (Bytes × Nat) × Bytes)
| 0, rest => some ([], rest)
| n + 1, rest =>
    if 40 ≤ rest.length then
      match readAuthorities n (rest.drop 40) with
      | some (as, rem) =>
          some ((rest.take 32, leNat ((rest.drop 32).take 8)) :: as, rem)
      | none => none
    else none

/-- Modelled from the spec: the SCALE decoding of a `ConsensusLog` payload
(`definitions::ConsensusLog::decode_all`; the `definitions` module is not
in the sources). A tag byte selects the variant (0 next-epoch data:
authority count byte, the authorities, a 32-byte randomness; 1 next-config
data: two 8-byte threshold-constant words and a boolean byte; 2 disabled
authority: a 4-byte index); the whole input must be consumed. -/
def decodeConsensusLog (input : Bytes) : Except String ConsensusLog :=
  match input with
  | 0 :: n :: rest =>
      match readAuthorities n rest with
      | some (as, rem) =>
          if rem.length = 32 then .ok (.nextEpochData as rem)
          else .error "invalid next-epoch-data randomness"
      | none => .error "invalid next-epoch-data authorities"
  | 1 :: rest =>
      if rest.length = 17 then
        match rest.drop 16 with
        | [0] => .ok (.nextConfigData (leNat (rest.take 8))
                   (leNat ((rest.drop 8).take 8)) false)
        | [1] => .ok (.nextConfigData (leNat (rest.take 8))
                   (leNat ((rest.drop 8).take 8)) true)
        | _ => .error "invalid next-config-data flag"
      else .error "invalid next-config-data body"
  | 2 :: rest =>
      if rest.length = 4 then .ok (.onDisabled (leNat rest))
      else .error "invalid on-disabled body"
  | _ => .error "invalid consensus log tag"

/-- Modelled from the spec: one digest item of the header codec
(`crate::block` is not in the sources; the spec specifies only the
contract `decode(bytes) -> Header | DecodeError`). A tag byte selects the
kind (0 pre-runtime, 1 consensus, 2 seal, 3 other); tagged kinds carry a
4-byte engine identifier; the payload is length-prefixed by one byte. -/
def decodeDigestItem (input : Bytes) : Option (DigestItem × Bytes) :=
  match input with
  | tag :: rest =>
      if tag = 3 then
        match rest with
        | len :: body =>
            if len ≤ body.length then
              some (.Other (body.take len), body.drop len)
            else none
        | [] => none
      else if tag ≤ 2 then
        match readBytes 4 rest with
        | some (engine, r1) =>
            match r1 with
            | len :: body =>
                if len ≤ body.length then
                  let payload := body.take len
                  let rem := body.drop len
                  if tag = 0 then some (.PreRuntime engine payload, rem)
                  else if tag = 1 then some (.Consensus engine payload, rem)
                  else some (.Seal engine payload, rem)
                else none
            | [] => none
        | none => none
      else none
  | [] => none

/-- Decode `n` consecutive digest items. -/
def decodeLogs : Nat → Bytes → Option (List DigestItem × Bytes)
| 0, rest => some ([], rest)
| n + 1, rest =>
    match decodeDigestItem rest with
    | some (item, rem) =>
        match decodeLogs n rem with
        | some (items, rem2) => some (item :: items, rem2)
        | none => none
    | none => none

/-- Modelled from the spec: `crate::block::Header::decode_all`, the
byte-level header decoding this module consumes (the `block` module is not
in the sources). Layout: 32-byte parent hash, 8-byte block number,
32-byte state root, 32-byte extrinsics root, a digest-log count byte and
the digest items; `decode_all` semantics requires every byte consumed. -/
def decodeHeader (bytes : Bytes) : Option Header := do
  let (ph, r1) ← readBytes 32 bytes
  let (num, r2) ← readBytes 8 r1
  let (sr, r3) ← readBytes 32 r2
  let (er, r4) ← readBytes 32 r3
  match r4 with
  | [] => none
  | cnt :: r5 =>
      let (logs, rem) ← decodeLogs cnt r5
      if rem = [] then some ⟨ph, leNat num, sr, er, logs⟩ else none

/-- Encoder matching `decodeDigestItem`, used to build concrete encoded
headers for evaluation. -/
def encodeDigestItem : DigestItem → Bytes
| .PreRuntime e p => 0 :: (e ++ p.length :: p)
| .Consensus e p => 1 :: (e ++ p.length :: p)
| .Seal e p => 2 :: (e ++ p.length :: p)
| .Other p => 3 :: p.length :: p

/-- Encoder matching `decodeHeader`, used to build concrete encoded
headers for evaluation. -/
def encodeHeader (h : Header) : Bytes :=
  h.parentHash ++ leBytes 8 h.number ++ h.stateRoot ++ h.extrinsicsRoot
    ++ h.digestLogs.length :: (h.digestLogs.map encodeDigestItem).flatten

/-- Failure to verify a block, mirroring `VerifyError` in `src/babe.rs`.
The decode-error payloads carry the diagnostic of the failed decode. -/
inductive VerifyError : Type
| InvalidHeader
| MissingSeal
| MissingPreRuntimeDigest
| MultiplePreRuntimeDigests
| PreRuntimeDigestDecodeError (err : String)
| ConsensusDigestDecodeError (err : String)
deriving DecidableEq

/-- Modelled from the spec: `BabeGenesisConfiguration`
(`chain_config` module, not in the sources): the epoch-0 descriptor data
plus epoch and slot durations. `verify_header` in `src/babe.rs` never
reads any of these fields. -/
structure BabeGenesisConfiguration : Type where
  authorities : List (Bytes × Nat)
  randomness : Bytes
  epochLength : Nat
  slotDuration : Nat
  cNumerator : Nat
  cDenominator : Nat
  allowSecondaryClaims : Bool
deriving DecidableEq

/-- Configuration for `verify_header`, mirroring `VerifyConfig` in
`src/babe.rs`: the SCALE-encoded header and the genesis configuration. -/
structure VerifyConfig : Type where
  scale_encoded_header : Bytes
  genesis_configuration : BabeGenesisConfiguration
deriving DecidableEq

deriving instance DecidableEq for Except

/-- Observable outcome of `verify_header`: the returned
`Result<(), VerifyError>` together with the explicit trace of values
printed to standard output (the `println!` at the end of the function
prints the decoded consensus-log list when it is nonempty). -/
structure VerifyOutcome : Type where
  result : Except VerifyError Unit
  printed : List (List ConsensusLog)
deriving DecidableEq

/-- Extraction of the trailing seal signature, mirroring the
`header.digest.logs.last()` match in `verify_header`: the last digest log
must be a `Seal` whose engine is `b"BABE"`. -/
def extractSealSignature (logs : List DigestItem) : Option Bytes :=
  match logs.getLast? with
  | some (.Seal engine signature) =>
      if engine = babeEngine then some signature else none
  | _ => none

/-- The BABE-tagged `PreRuntime` payloads of the digest logs, in header
order, mirroring the `filter_map` over `header.digest.logs` in
`verify_header`. -/
def preRuntimePayloads (logs : List DigestItem) : List Bytes :=
  logs.filterMap fun l =>
    match l with
    | .PreRuntime engine data =>
        if engine = babeEngine then some data else none
    | _ => none

/-- The BABE-tagged `Consensus` payloads of the digest logs, in header
order, mirroring the second `filter_map` in `verify_header`. -/
def consensusPayloads (logs : List DigestItem) : List Bytes :=
  logs.filterMap fun l =>
    match l with
    | .Consensus engine data =>
        if engine = babeEngine then some data else none
    | _ => none

/-- Decoding of the consensus payloads in order, stopping at the first
failure, mirroring the `for digest in list` loop in `verify_header`. -/
def decodeConsensusLogs : List Bytes → Except String (List ConsensusLog)
| [] => .ok []
| p :: rest =>
    match decodeConsensusLog p with
    | .error e => .error e
    | .ok c =>
        match decodeConsensusLogs rest with
        | .error e => .error e
        | .ok cs => .ok (c :: cs)

/-- Embedding of `verify_header` from `src/babe.rs`. The source decodes
the header (failure: `InvalidHeader`), requires the last digest log to be
a BABE seal (failure: `MissingSeal`), requires exactly one BABE
pre-runtime digest (failures: `MissingPreRuntimeDigest`,
`MultiplePreRuntimeDigests`, checked before decoding the first payload)
whose payload decodes as a `PreDigest` (failure:
`PreRuntimeDigestDecodeError`), decodes every BABE consensus payload in
order (failure: `ConsensusDigestDecodeError`), computes the pre-seal hash
of the header with the final log popped (a value it never uses), prints
the consensus logs when the list is nonempty, and returns `Ok(())`. No
signature, VRF, threshold, authority or slot check is performed, and the
genesis configuration is never read (the remainder of the function is an
unimplemented `TODO` in the source). -/
def verify_header (config : VerifyConfig) : VerifyOutcome :=
  match decodeHeader config.scale_encoded_header with
  | none => ⟨.error .InvalidHeader, []⟩
  | some header =>
      match extractSealSignature header.digestLogs with
      | none => ⟨.error .MissingSeal, []⟩
      | some _seal_signature =>
          match preRuntimePayloads header.digestLogs with
          | [] => ⟨.error .MissingPreRuntimeDigest, []⟩
          | p :: rest =>
              if rest.isEmpty then
                match decodePreDigest p with
                | .error e => ⟨.error (.PreRuntimeDigestDecodeError e), []⟩
                | .ok _pre_runtime =>
                    match decodeConsensusLogs
                        (consensusPayloads header.digestLogs) with
                    | .error e =>
                        ⟨.error (.ConsensusDigestDecodeError e), []⟩
                    | .ok consensus_logs =>
                        ⟨.ok (),
                         if consensus_logs.isEmpty then []
                         else [consensus_logs]⟩
              else ⟨.error .MultiplePreRuntimeDigests, []⟩

/-- Concrete genesis configuration used in closed evaluations: three
authorities with weights 1, 1 and 2, threshold constant 1/2, and secondary
claims allowed. Mirrors the example scenario of the specification. -/
def exampleGenesisConfiguration : BabeGenesisConfiguration :=
  ⟨[(List.replicate 32 10, 1), (List.replicate 32 11, 1),
    (List.replicate 32 12, 2)],
   List.replicate 32 0, 2400, 6000, 1, 2, true⟩

/-- Concrete decodable primary-claim pre-digest payload: tag 0, authority
index 2, slot number 100, a 32-byte VRF output and a 64-byte VRF proof. -/
def examplePrimaryPayload : Bytes :=
  0 :: (leBytes 4 2 ++ leBytes 8 100 ++ List.replicate 32 1
        ++ List.replicate 64 2)

/-- Concrete 64-byte seal signature. -/
def exampleSealSignature : Bytes := List.replicate 64 0

/-- The example seal signature with its first bit flipped. -/
def exampleAlteredSealSignature : Bytes := 1 :: List.replicate 63 0

/-- Header builder over the fixed non-digest fields used in evaluations. -/
def mkHeader (logs : List DigestItem) : Header :=
  ⟨List.replicate 32 3, 1, List.replicate 32 4, List.replicate 32 5, logs⟩

/-- Concrete structurally valid header: one BABE pre-runtime digest with a
decodable primary claim, followed by a trailing BABE seal. -/
def exampleValidHeader : Header :=
  mkHeader [.PreRuntime babeEngine examplePrimaryPayload,
            .Seal babeEngine exampleSealSignature]

/-- The example header with one bit of its seal signature flipped. -/
def exampleAlteredSealHeader : Header :=
  mkHeader [.PreRuntime babeEngine examplePrimaryPayload,
            .Seal babeEngine exampleAlteredSealSignature]

/-- Concrete decodable consensus payload: tag 2, disabled authority 7. -/
def exampleOnDisabledPayload : Bytes := 2 :: leBytes 4 7

/-- Concrete structurally valid header that also carries one BABE
consensus digest. -/
def exampleConsensusHeader : Header :=
  mkHeader [.Consensus babeEngine exampleOnDisabledPayload,
            .PreRuntime babeEngine examplePrimaryPayload,
            .Seal babeEngine exampleSealSignature]

/-- Concrete header whose BABE consensus payload has an invalid tag. -/
def exampleBadConsensusHeader : Header :=
  mkHeader [.Consensus babeEngine [9],
            .PreRuntime babeEngine examplePrimaryPayload,
            .Seal babeEngine exampleSealSignature]

/-- Result of comparing two chain tips. -/
inductive ChainSelection : Type
| Greater
| Less
| Incomparable
deriving DecidableEq

/-- A verified chain tip as seen by the chain selector: its slot number
and the count of primary-slot claims on its chain since the fork point. -/
structure ChainTip : Type where
  slotNumber : Nat
  primaryClaimCount : Nat
deriving DecidableEq

/-- Modelled from the spec: the chain-selection comparator `select` (the
chain selector has no implementation in the sources; §4.5 of the spec and
the module documentation of `src/babe.rs` describe the rule). Prefer the
tip with the strictly greater slot number; if equal, prefer the tip with
the strictly greater primary-claim count since the fork point; if still
tied, the tips are incomparable. -/
def select (a b : ChainTip) : ChainSelection :=
  if b.slotNumber < a.slotNumber then .Greater
  else if a.slotNumber < b.slotNumber then .Less
  else if b.primaryClaimCount < a.primaryClaimCount then .Greater
  else if a.primaryClaimCount < b.primaryClaimCount then .Less
  else .Incomparable

/-- Successful `decodeConsensusLogs` preserves length and decodes each
payload at its own position: the output list corresponds index-wise to the
input payloads. -/
theorem decodeConsensusLogs_spec :
    ∀ (ps : List Bytes) (cls : List ConsensusLog),
      decodeConsensusLogs ps = .ok cls →
      cls.length = ps.length ∧
        ∀ (i : Nat) (hi : i < cls.length) (hj : i < ps.length),
          decodeConsensusLog (ps.get ⟨i, hj⟩) = .ok (cls.get ⟨i, hi⟩) := by
  intro ps
  induction ps with
  | nil =>
      intro cls h
      simp only [decodeConsensusLogs] at h
      cases h
      simp
  | cons p rest ih =>
      intro cls h
      simp only [decodeConsensusLogs] at h
      cases hd : decodeConsensusLog p with
      | error e => rw [hd] at h; cases h
      | ok c =>
          rw [hd] at h
          cases hrest : decodeConsensusLogs rest with
          | error e => rw [hrest] at h; cases h
          | ok cs =>
              rw [hrest] at h
              cases h
              obtain ⟨ihl, ihg⟩ := ih cs hrest
              refine ⟨by simp [ihl], ?_⟩
              intro i hi hj
              cases i with
              | zero => simpa using hd
              | succ k =>
                  simpa using ihg k (by simpa using hi) (by simpa using hj)

/-- Extraction of the seal signature from a digest log list whose last
entry is a BABE-tagged seal. -/
theorem extractSealSignature_of_last {logs : List DigestItem} {sig : Bytes}
    (hlast : logs.getLast? = some (.Seal babeEngine sig)) :
    extractSealSignature logs = some sig := by
  simp [extractSealSignature, hlast]

/-- C3: every header that decodes at the byte level, whose last digest
log is a BABE-tagged seal, which contains exactly one BABE-tagged
pre-runtime log whose payload decodes as a `PreDigest`, and all of whose
BABE-tagged consensus logs decode as `ConsensusLog`, is accepted by
`verify_header` with `Ok(())` — for every genesis configuration and every
signature and claim content, so no signature, VRF, threshold,
authority-index or slot check is performed. -/
theorem structurallyValidHeaderAccepted
    (bytes : Bytes) (cfg : BabeGenesisConfiguration) (h : Header)
    (sig p : Bytes) (pd : PreDigest) (cls : List ConsensusLog)
    (hdec : decodeHeader bytes = some h)
    (hlast : h.digestLogs.getLast? = some (.Seal babeEngine sig))
    (hpre : preRuntimePayloads h.digestLogs = [p])
    (hpd : decodePreDigest p = .ok pd)
    (hcls : decodeConsensusLogs (consensusPayloads h.digestLogs) = .ok cls) :
    (verify_header ⟨bytes, cfg⟩).result = .ok () := by
  have hseal := extractSealSignature_of_last hlast
  simp [verify_header, hdec, hseal, hpre, hpd, hcls]

/-- Witness for C3 at a concrete header with one decodable primary
pre-runtime digest, one decodable consensus digest and a trailing BABE
seal. -/
theorem structurallyValidHeaderAccepted_witness :
    (verify_header ⟨encodeHeader exampleConsensusHeader,
        exampleGenesisConfiguration⟩).result = .ok () :=
  structurallyValidHeaderAccepted
    (encodeHeader exampleConsensusHeader) exampleGenesisConfiguration
    exampleConsensusHeader exampleSealSignature examplePrimaryPayload
    (.primary 2 100 (List.replicate 32 1) (List.replicate 64 2))
    [.onDisabled 7] (by decide) (by decide) (by decide) (by decide)
    (by decide)

/-- C4: every header that decodes but whose digest log list is empty,
whose last log is not a seal, or whose last log is a seal of an engine
other than `"BABE"`, is rejected by `verify_header` with `MissingSeal`. -/
theorem missingSealCases
    (bytes : Bytes) (cfg : BabeGenesisConfiguration) (h : Header)
    (hdec : decodeHeader bytes = some h)
    (hcond : h.digestLogs = []
      ∨ (∀ (e s : Bytes), h.digestLogs.getLast? ≠ some (.Seal e s))
      ∨ (∃ (e s : Bytes), h.digestLogs.getLast? = some (.Seal e s)
          ∧ e ≠ babeEngine)) :
    (verify_header ⟨bytes, cfg⟩).result = .error .MissingSeal := by
  have hseal : extractSealSignature h.digestLogs = none := by
    rcases hcond with hnil | hnotseal | ⟨e, s, hlast, hne⟩
    · simp [extractSealSignature, hnil]
    · unfold extractSealSignature
      rcases hlast : h.digestLogs.getLast? with _ | (⟨e, d⟩ | ⟨e, d⟩ | ⟨e, s⟩ | ⟨d⟩)
      · rfl
      · rfl
      · rfl
      · exact absurd hlast (hnotseal e s)
      · rfl
    · unfold extractSealSignature
      rw [hlast]
      simp [hne]
  simp [verify_header, hdec, hseal]

/-- Witness for C4 at a concrete decodable header with an empty digest
log list. -/
theorem missingSealCases_witness :
    (verify_header ⟨encodeHeader (mkHeader []),
        exampleGenesisConfiguration⟩).result = .error .MissingSeal :=
  missingSealCases (encodeHeader (mkHeader [])) exampleGenesisConfiguration
    (mkHeader []) (by decide) (Or.inl rfl)

/-- C5: for every decodable header with a trailing BABE seal, zero
BABE-tagged pre-runtime digests fail with `MissingPreRuntimeDigest`, two
or more fail with `MultiplePreRuntimeDigests`, and a single one whose
payload does not decode fails with `PreRuntimeDigestDecodeError` carrying
the decode diagnostic. -/
theorem preRuntimeDigestCardinality
    (bytes : Bytes) (cfg : BabeGenesisConfiguration) (h : Header)
    (sig : Bytes)
    (hdec : decodeHeader bytes = some h)
    (hlast : h.digestLogs.getLast? = some (.Seal babeEngine sig)) :
    (preRuntimePayloads h.digestLogs = [] →
      (verify_header ⟨bytes, cfg⟩).result = .error .MissingPreRuntimeDigest)
    ∧ (2 ≤ (preRuntimePayloads h.digestLogs).length →
      (verify_header ⟨bytes, cfg⟩).result
        = .error .MultiplePreRuntimeDigests)
    ∧ (∀ (p : Bytes) (e : String), preRuntimePayloads h.digestLogs = [p] →
      decodePreDigest p = .error e →
      (verify_header ⟨bytes, cfg⟩).result
        = .error (.PreRuntimeDigestDecodeError e)) := by
  have hseal := extractSealSignature_of_last hlast
  refine ⟨fun hpre => ?_, fun hlen => ?_, fun p e hpre hperr => ?_⟩
  · simp [verify_header, hdec, hseal, hpre]
  · cases hlist : preRuntimePayloads h.digestLogs with
    | nil => rw [hlist] at hlen; simp at hlen
    | cons p rest =>
        cases rest with
        | nil => rw [hlist] at hlen; simp at hlen
        | cons q rest2 => simp [verify_header, hdec, hseal, hlist]
  · simp [verify_header, hdec, hseal, hpre, hperr]

/-- Witness for C5 at three concrete headers: a seal-only header, a
header with two BABE pre-runtime digests, and a header whose single
pre-runtime payload has an invalid tag. -/
theorem preRuntimeDigestCardinality_witness :
    (verify_header ⟨encodeHeader
        (mkHeader [.Seal babeEngine exampleSealSignature]),
        exampleGenesisConfiguration⟩).result
      = .error .MissingPreRuntimeDigest
    ∧ (verify_header ⟨encodeHeader
        (mkHeader [.PreRuntime babeEngine examplePrimaryPayload,
                   .PreRuntime babeEngine examplePrimaryPayload,
                   .Seal babeEngine exampleSealSignature]),
        exampleGenesisConfiguration⟩).result
      = .error .MultiplePreRuntimeDigests
    ∧ (verify_header ⟨encodeHeader
        (mkHeader [.PreRuntime babeEngine [9],
                   .Seal babeEngine exampleSealSignature]),
        exampleGenesisConfiguration⟩).result
      = .error (.PreRuntimeDigestDecodeError "invalid pre-digest tag") :=
  ⟨(preRuntimeDigestCardinality _ exampleGenesisConfiguration
      (mkHeader [.Seal babeEngine exampleSealSignature])
      exampleSealSignature (by decide) (by decide)).1 (by decide),
   (preRuntimeDigestCardinality _ exampleGenesisConfiguration
      (mkHeader [.PreRuntime babeEngine examplePrimaryPayload,
                 .PreRuntime babeEngine examplePrimaryPayload,
                 .Seal babeEngine exampleSealSignature])
      exampleSealSignature (by decide) (by decide)).2.1 (by decide),
   (preRuntimeDigestCardinality _ exampleGenesisConfiguration
      (mkHeader [.PreRuntime babeEngine [9],
                 .Seal babeEngine exampleSealSignature])
      exampleSealSignature (by decide) (by decide)).2.2 [9]
      "invalid pre-digest tag" (by decide) (by decide)⟩

/-- C6: for every decodable header with a trailing BABE seal and exactly
one decodable BABE pre-runtime digest, the BABE consensus payloads are
decoded in header order (index-wise correspondence), a decode failure is
reported as `ConsensusDigestDecodeError`, and consensus logs of other
engines and other digest kinds are ignored by the consensus-payload
extraction. -/
theorem consensusLogDecoding
    (bytes : Bytes) (cfg : BabeGenesisConfiguration) (h : Header)
    (sig p : Bytes) (pd : PreDigest)
    (hdec : decodeHeader bytes = some h)
    (hlast : h.digestLogs.getLast? = some (.Seal babeEngine sig))
    (hpre : preRuntimePayloads h.digestLogs = [p])
    (hpd : decodePreDigest p = .ok pd) :
    (∀ e : String,
      decodeConsensusLogs (consensusPayloads h.digestLogs) = .error e →
      (verify_header ⟨bytes, cfg⟩).result
        = .error (.ConsensusDigestDecodeError e))
    ∧ (∀ cls : List ConsensusLog,
      decodeConsensusLogs (consensusPayloads h.digestLogs) = .ok cls →
      (verify_header ⟨bytes, cfg⟩).result = .ok ()
      ∧ (verify_header ⟨bytes, cfg⟩).printed
          = (if cls.isEmpty then [] else [cls])
      ∧ cls.length = (consensusPayloads h.digestLogs).length
      ∧ ∀ (i : Nat) (hi : i < cls.length)
          (hj : i < (consensusPayloads h.digestLogs).length),
          decodeConsensusLog ((consensusPayloads h.digestLogs).get ⟨i, hj⟩)
            = .ok (cls.get ⟨i, hi⟩))
    ∧ (∀ (d : DigestItem) (before after : List DigestItem),
      (∀ data : Bytes, d ≠ .Consensus babeEngine data) →
      consensusPayloads (before ++ d :: after)
        = consensusPayloads (before ++ after)) := by
  have hseal := extractSealSignature_of_last hlast
  refine ⟨fun e herr => ?_, fun cls hcls => ?_, fun d bs as hne => ?_⟩
  · simp [verify_header, hdec, hseal, hpre, hpd, herr]
  · obtain ⟨hlen, hget⟩ := decodeConsensusLogs_spec _ _ hcls
    refine ⟨?_, ?_, hlen, hget⟩
    · simp [verify_header, hdec, hseal, hpre, hpd, hcls]
    · simp [verify_header, hdec, hseal, hpre, hpd, hcls]
  · cases d with
    | Consensus e data =>
        have he : e ≠ babeEngine := fun hEq => hne data (by rw [hEq])
        simp [consensusPayloads, List.filterMap_append,
          List.filterMap_cons, he]
    | PreRuntime e data =>
        simp [consensusPayloads, List.filterMap_append, List.filterMap_cons]
    | Seal e data =>
        simp [consensusPayloads, List.filterMap_append, List.filterMap_cons]
    | Other data =>
        simp [consensusPayloads, List.filterMap_append, List.filterMap_cons]

/-- Witness for C6 at two concrete headers: one whose single BABE
consensus payload has an invalid tag, and one whose single BABE consensus
payload decodes to an `OnDisabled` log that is then printed. -/
theorem consensusLogDecoding_witness :
    (verify_header ⟨encodeHeader exampleBadConsensusHeader,
        exampleGenesisConfiguration⟩).result
      = .error (.ConsensusDigestDecodeError "invalid consensus log tag")
    ∧ (verify_header ⟨encodeHeader exampleConsensusHeader,
        exampleGenesisConfiguration⟩).printed
      = [[.onDisabled 7]] := by
  constructor
  · exact (consensusLogDecoding (encodeHeader exampleBadConsensusHeader)
      exampleGenesisConfiguration exampleBadConsensusHeader exampleSealSignature examplePrimaryPayload
      (.primary 2 100 (List.replicate 32 1) (List.replicate 64 2))
      (by decide) (by decide) (by decide) (by decide)).1
      "invalid consensus log tag" (by decide)
  · have hp := ((consensusLogDecoding (encodeHeader exampleConsensusHeader)
      exampleGenesisConfiguration exampleConsensusHeader exampleSealSignature examplePrimaryPayload
      (.primary 2 100 (List.replicate 32 1) (List.replicate 64 2))
      (by decide) (by decide) (by decide) (by decide)).2.1
      [.onDisabled 7] (by decide)).2.1
    simpa using hp

/-- C7: every input whose header bytes fail to decode is rejected by
`verify_header` with `InvalidHeader`, with no digest inspection and no
output printed. -/
theorem undecodableHeaderInvalid
    (bytes : Bytes) (cfg : BabeGenesisConfiguration)
    (hdec : decodeHeader bytes = none) :
    verify_header ⟨bytes, cfg⟩ = ⟨.error .InvalidHeader, []⟩ := by
  simp [verify_header, hdec]

/-- Witness for C7 at the empty byte string. -/
theorem undecodableHeaderInvalid_witness :
    verify_header ⟨[], exampleGenesisConfiguration⟩
      = ⟨.error .InvalidHeader, []⟩ :=
  undecodableHeaderInvalid [] exampleGenesisConfiguration (by decide)

/-- C1: counter-evidence for the claim that an altered seal signature is
rejected with `BadSeal` — the code performs no seal verification at all
(and `VerifyError` has no such variant): the header whose 64-byte seal
signature has its first bit flipped, but which is otherwise valid, is
accepted with `Ok(())`, exactly like the unaltered header. -/
theorem alteredSealStillAccepted :
    (verify_header ⟨encodeHeader exampleValidHeader,
        exampleGenesisConfiguration⟩).result = .ok ()
    ∧ (verify_header ⟨encodeHeader exampleAlteredSealHeader,
        exampleGenesisConfiguration⟩).result = .ok ()
    ∧ exampleAlteredSealSignature ≠ exampleSealSignature := by
  decide

/-- C2: counter-evidence for the claim that success reports the author's
public key, a primary flag, the VRF output and an epoch descriptor — the
success value of `verify_header` is the unit value `()` (the return type
is `Result<(), VerifyError>`), carrying no claim data at all, here at a
concrete valid header with a correct-shape primary claim. -/
theorem successCarriesNoClaimData :
    verify_header ⟨encodeHeader exampleValidHeader,
        exampleGenesisConfiguration⟩ = ⟨.ok (), []⟩ := by
  decide

/-- C8: counter-evidence for the claim that the digest extraction has no
side effects — on a header carrying one decodable BABE consensus log, the
code prints the decoded consensus-log list to standard output (the
`println!` in `verify_header`), so the output stream is not left
untouched. -/
theorem extractionPrintsConsensusLogs :
    (verify_header ⟨encodeHeader exampleConsensusHeader,
        exampleGenesisConfiguration⟩).printed = [[.onDisabled 7]]
    ∧ (verify_header ⟨encodeHeader exampleConsensusHeader,
        exampleGenesisConfiguration⟩).printed ≠ [] := by
  decide

/-- C9: for two sibling tips at equal slot number, `select` returns
`Greater` for the tip with the strictly greater primary-claim count since
the fork point, and `Incomparable` when the primary-claim counts are also
equal. -/
theorem selectPrefersPrimaryCount
    (a b : ChainTip) (hslot : a.slotNumber = b.slotNumber) :
    (b.primaryClaimCount < a.primaryClaimCount → select a b = .Greater)
    ∧ (a.primaryClaimCount = b.primaryClaimCount
        → select a b = .Incomparable) := by
  refine ⟨fun hlt => ?_, fun heq => ?_⟩
  · simp [select, hslot, hlt]
  · simp [select, hslot, heq]

/-- Witness for C9 at the spec's example: equal slots, 3 primary claims
against 2 gives `Greater`; equal counts give `Incomparable`. -/
theorem selectPrefersPrimaryCount_witness :
    select ⟨10, 3⟩ ⟨10, 2⟩ = .Greater
    ∧ select ⟨10, 2⟩ ⟨10, 2⟩ = .Incomparable :=
  ⟨(selectPrefersPrimaryCount ⟨10, 3⟩ ⟨10, 2⟩ rfl).1 (by decide),
   (selectPrefersPrimaryCount ⟨10, 2⟩ ⟨10, 2⟩ rfl).2 rfl⟩

/-- C10: verifying the same header against the same configuration twice
yields the same outcome — `verify_header` depends only on its inputs, has
no hidden state, and commits no epoch state at all (so in particular none
twice; the commit step is unimplemented in the source). -/
theorem verifyHeaderDeterministic
    (c₁ c₂ : VerifyConfig)
    (hh : c₁.scale_encoded_header = c₂.scale_encoded_header)
    (hg : c₁.genesis_configuration = c₂.genesis_configuration) :
    verify_header c₁ = verify_header c₂ := by
  cases c₁
  cases c₂
  cases hh
  cases hg
  rfl

/-- Witness for C10 at a concrete header and configuration. -/
theorem verifyHeaderDeterministic_witness :
    verify_header ⟨encodeHeader exampleValidHeader,
        exampleGenesisConfiguration⟩
      = verify_header ⟨encodeHeader exampleValidHeader,
          exampleGenesisConfiguration⟩ :=
  verifyHeaderDeterministic _ _ rfl rfl

end Babe
